import Mathlib

/-!
Verification of the routing-code generator of golang-bazel-starter.

The definitions below are a shallow embedding of the generator's Go source:
the YAML specification model and `Validate` (tools/codegen spec.go), the
generator's helper queries and `Generate`/`WriteToFile` (generator.go and
main.go), and — where the repository ships only documentation for the
emitted code (the messenger generator's output) — definitions modelled
from the specification document, marked as such in their doc comments.
External Go library effects (file reads, YAML parsing, text/template
execution, go/format) are passed in as explicit oracle parameters, so that
every repository-owned decision is a pure, executable Lean function.
-/

namespace IfaceGen

/-- Handler mirrors the Go struct `Handler {Name, Type string}`
(`Type` is a Lean keyword, hence the field name `Type_`). -/
structure Handler where
  Name : String
  Type_ : String
deriving DecidableEq

/-- MessageRoute mirrors the Go struct `MessageRoute {Message, Response string; Receivers []string}`. -/
structure MessageRoute where
  Message : String
  Response : String
  Receivers : List String
deriving DecidableEq

/-- Route mirrors the Go struct `Route {Source string; Messages []MessageRoute}`. -/
structure Route where
  Source : String
  Messages : List MessageRoute
deriving DecidableEq

/-- InterfaceSpec mirrors the Go struct `InterfaceSpec {Package string; Imports []string; Handlers []Handler; Routes []Route}`. -/
structure InterfaceSpec where
  Package : String
  Imports : List String
  Handlers : List Handler
  Routes : List Route
deriving DecidableEq

/-- Structured form of every error `Validate` can build with `fmt.Errorf`;
each constructor carries exactly the data the Go format string interpolates. -/
inductive ValErr where
  | pkgRequired : ValErr
  | noHandlers : ValErr
  | noRoutes : ValErr
  | handlerNameRequired (i : Nat) : ValErr
  | handlerTypeRequired (i : Nat) : ValErr
  | sourceRequired (i : Nat) : ValErr
  | unknownSource (i : Nat) (src : String) (available : List String) : ValErr
  | noMessages (i : Nat) (src : String) : ValErr
  | messageTypeRequired (i j : Nat) : ValErr
  | noReceivers (i j : Nat) : ValErr
  | unknownReceiver (i j k : Nat) (rcv : String) (available : List String) : ValErr
deriving DecidableEq

/-- Rendering of a Go `%v` of a `[]string`: bracketed, space-separated. -/
def goSliceRepr (xs : List String) : String :=
  "[" ++ String.intercalate " " xs ++ "]"

/-- The exact error message text `Validate` formats for each error
(Go single quotes written via the escape \x27). -/
def ValErr.message : ValErr → String
  | .pkgRequired => "package name is required"
  | .noHandlers => "at least one handler is required"
  | .noRoutes => "at least one route is required"
  | .handlerNameRequired i => "handler " ++ toString i ++ ": name is required"
  | .handlerTypeRequired i => "handler " ++ toString i ++ ": type is required"
  | .sourceRequired i => "route " ++ toString i ++ ": source is required"
  | .unknownSource i src available =>
      "route " ++ toString i ++ ": unknown handler \x27" ++ src ++
        "\x27 in source (available handlers: " ++ goSliceRepr available ++ ")"
  | .noMessages i src =>
      "route " ++ toString i ++ ": at least one message is required for source " ++ src
  | .messageTypeRequired i j =>
      "route " ++ toString i ++ ", message " ++ toString j ++ ": message type is required"
  | .noReceivers i j =>
      "route " ++ toString i ++ ", message " ++ toString j ++ ": at least one receiver is required"
  | .unknownReceiver i j k rcv available =>
      "route " ++ toString i ++ ", message " ++ toString j ++ ", receiver " ++ toString k ++
        ": unknown handler \x27" ++ rcv ++ "\x27 (available handlers: " ++
        goSliceRepr available ++ ")"

/-- Constructor tag, used to show which loop of `Validate` an error came from. -/
def ValErr.tag : ValErr → Nat
  | .pkgRequired => 0
  | .noHandlers => 1
  | .noRoutes => 2
  | .handlerNameRequired _ => 3
  | .handlerTypeRequired _ => 4
  | .sourceRequired _ => 5
  | .unknownSource _ _ _ => 6
  | .noMessages _ _ => 7
  | .messageTypeRequired _ _ => 8
  | .noReceivers _ _ => 9
  | .unknownReceiver _ _ _ _ _ => 10

/-- getHandlerNamesList mirrors the Go helper: the names of the handlers, in order. -/
def getHandlerNamesList (handlers : List Handler) : List String :=
  handlers.map Handler.Name

/-- Membership in the `handlerNames map[string]bool` that `Validate` builds:
a name is in the map iff some declared handler bears it. -/
def hasHandler (handlers : List Handler) (n : String) : Bool :=
  handlers.any (fun h => h.Name = n)

/-- The first loop of `Validate` over `s.Handlers` (index-carrying recursion
mirroring `for i, h := range s.Handlers`). -/
def checkHandlers : Nat → List Handler → Option ValErr
  | _, [] => none
  | i, h :: rest =>
      if h.Name = "" then some (.handlerNameRequired i)
      else if h.Type_ = "" then some (.handlerTypeRequired i)
      else checkHandlers (i + 1) rest

/-- The innermost loop of `Validate` over `m.Receivers`. -/
def checkReceivers (handlers : List Handler) (i j : Nat) : Nat → List String → Option ValErr
  | _, [] => none
  | k, rcv :: rest =>
      if hasHandler handlers rcv then checkReceivers handlers i j (k + 1) rest
      else some (.unknownReceiver i j k rcv (getHandlerNamesList handlers))

/-- The loop of `Validate` over `r.Messages`. -/
def checkMessages (handlers : List Handler) (i : Nat) : Nat → List MessageRoute → Option ValErr
  | _, [] => none
  | j, m :: rest =>
      if m.Message = "" then some (.messageTypeRequired i j)
      else if m.Receivers.isEmpty then some (.noReceivers i j)
      else
        match checkReceivers handlers i j 0 m.Receivers with
        | some e => some e
        | none => checkMessages handlers i (j + 1) rest

/-- The loop of `Validate` over `s.Routes`. -/
def checkRoutes (handlers : List Handler) : Nat → List Route → Option ValErr
  | _, [] => none
  | i, r :: rest =>
      if r.Source = "" then some (.sourceRequired i)
      else if hasHandler handlers r.Source then
        if r.Messages.isEmpty then some (.noMessages i r.Source)
        else
          match checkMessages handlers i 0 r.Messages with
          | some e => some e
          | none => checkRoutes handlers (i + 1) rest
      else some (.unknownSource i r.Source (getHandlerNamesList handlers))

/-- Validate mirrors the Go method `(s *InterfaceSpec) Validate() error`:
the checks run in source order and the first failure is returned. -/
def validate (s : InterfaceSpec) : Except ValErr Unit :=
  if s.Package = "" then .error .pkgRequired
  else if s.Handlers.isEmpty then .error .noHandlers
  else if s.Routes.isEmpty then .error .noRoutes
  else
    match checkHandlers 0 s.Handlers with
    | some e => .error e
    | none =>
        match checkRoutes s.Handlers 0 s.Routes with
        | some e => .error e
        | none => .ok ()

/-- Claim C4's per-handler check, as a Boolean: the handler has a
non-empty name and a non-empty type. -/
def handlerOkB (h : Handler) : Bool :=
  !(h.Name == "") && !(h.Type_ == "")

/-- Claim C4's per-message checks, as a Boolean: non-empty message type,
at least one receiver, and every receiver name resolves to a known
handler. -/
def messageOkB (hs : List Handler) (m : MessageRoute) : Bool :=
  !(m.Message == "") && !m.Receivers.isEmpty && m.Receivers.all (fun n => hasHandler hs n)

/-- Claim C4's per-route checks, as a Boolean: non-empty source, source
resolves to a known handler, at least one message, and every message
passes its checks. -/
def routeOkB (hs : List Handler) (r : Route) : Bool :=
  !(r.Source == "") && hasHandler hs r.Source && !r.Messages.isEmpty &&
    r.Messages.all (fun m => messageOkB hs m)

/-- The handler-collection check of claim C4, rejecting at the first
failure: find the first handler failing a check (via `List.findIdx?`) and
report, in order, its empty name or else its empty type. -/
def firstHandlerErr (hs : List Handler) : Option ValErr :=
  match hs.findIdx? (fun h => !(handlerOkB h)) with
  | none => none
  | some d =>
      match hs[d]? with
      | none => none
      | some h =>
          if h.Name == "" then some (.handlerNameRequired d)
          else some (.handlerTypeRequired d)

/-- The receiver-resolution check of claim C4 for one message, rejecting
at the first failure: the first receiver name (index `d`) that resolves
to no known handler is reported, citing the name and all known handler
names. -/
def firstReceiverErr (hs : List Handler) (i j : Nat) (rcvs : List String) : Option ValErr :=
  match rcvs.findIdx? (fun n => !(hasHandler hs n)) with
  | none => none
  | some d =>
      match rcvs[d]? with
      | none => none
      | some n => some (.unknownReceiver i j d n (getHandlerNamesList hs))

/-- The message-list checks of claim C4 for one route, rejecting at the
first failure: at the first failing message, report in order its empty
message type, its empty receiver list, or its first unresolvable
receiver. -/
def firstMessageErr (hs : List Handler) (i : Nat) (ms : List MessageRoute) : Option ValErr :=
  match ms.findIdx? (fun m => !(messageOkB hs m)) with
  | none => none
  | some d =>
      match ms[d]? with
      | none => none
      | some m =>
          if m.Message == "" then some (.messageTypeRequired i d)
          else if m.Receivers.isEmpty then some (.noReceivers i d)
          else firstReceiverErr hs i d m.Receivers

/-- The route-list checks of claim C4, rejecting at the first failure: at
the first failing route, report in order its empty source, its
unresolvable source (citing the name and all known handler names), its
empty message list, or its first failing message. -/
def firstRouteErr (hs : List Handler) (rs : List Route) : Option ValErr :=
  match rs.findIdx? (fun r => !(routeOkB hs r)) with
  | none => none
  | some d =>
      match rs[d]? with
      | none => none
      | some r =>
          if r.Source == "" then some (.sourceRequired d)
          else if !(hasHandler hs r.Source) then
            some (.unknownSource d r.Source (getHandlerNamesList hs))
          else if r.Messages.isEmpty then some (.noMessages d r.Source)
          else firstMessageErr hs d r.Messages

/-- Claim C4's enumerated check order, written as a reference validator
that rejects at the first failure: non-empty package identifier (the only
package/output identifier carried by this generator's spec); at least one
handler; at least one route; every handler has a non-empty name and type;
then, route by route in order: source non-empty and resolving to a known
handler, at least one message, every message with a non-empty type, at
least one receiver, and every receiver resolving to a known handler.
Kept separate from `validate` (the source embedding) so the two can be
compared. -/
def validateClaimOrder (s : InterfaceSpec) : Except ValErr Unit :=
  if s.Package = "" then .error .pkgRequired
  else if s.Handlers.isEmpty then .error .noHandlers
  else if s.Routes.isEmpty then .error .noRoutes
  else
    match firstHandlerErr s.Handlers with
    | some e => .error e
    | none =>
        match firstRouteErr s.Handlers s.Routes with
        | some e => .error e
        | none => .ok ()

/-- Character-level model of Go `strings.Split(s, ".")`: split at every
dot; `strings.Split` always returns at least one (possibly empty)
segment. Structural recursion so it evaluates inside the kernel. -/
def splitDot : List Char → List (List Char)
  | [] => [[]]
  | c :: rest =>
      match splitDot rest with
      | [] => [[c]]
      | seg :: segs => if c = '.' then [] :: seg :: segs else (c :: seg) :: segs

/-- Character-level model of Go `strings.TrimPrefix(s, "*")`: remove one
leading star when present. -/
def trimStar : List Char → List Char
  | '*' :: rest => rest
  | cs => cs

/-- The character list of the suffix `"Proto"`. -/
def protoSuffix : List Char := ['P', 'r', 'o', 't', 'o']

/-- baseName on character lists, mirroring the template helper in
`Generate`: `strings.TrimPrefix(s, "*")`, `strings.Split(s, ".")`, keep
the last segment, `strings.TrimSuffix(name, "Proto")`. -/
def baseNameChars (cs : List Char) : List Char :=
  let cs1 := trimStar cs
  let parts := splitDot cs1
  match parts.getLast? with
  | some name =>
      if protoSuffix.isSuffixOf name then name.take (name.length - 5) else name
  | none => cs1

/-- baseName mirrors the template helper registered by `Generate`. -/
def baseName (s : String) : String :=
  String.mk (baseNameChars s.data)

/-- Restatement of claim C9's derivation rule in the claim's own words:
strip the leading star decoration, take the last dot-separated segment,
strip a trailing "Proto" when present. Kept separate from
`baseNameChars` so the two can be compared. -/
def baseNameSpecChars (cs : List Char) : List Char :=
  let noStar := trimStar cs
  let lastSeg := (splitDot noStar).getLastD noStar
  if protoSuffix.isSuffixOf lastSeg then lastSeg.take (lastSeg.length - 5) else lastSeg

/-- Claim C9's derivation rule as a function on strings. -/
def baseNameSpec (s : String) : String :=
  String.mk (baseNameSpecChars s.data)

/-- RoutesReceivedBy mirrors the Go method on `Generator`: every route in
which the handler occurs in some message's receiver list, with that
route's messages filtered down to the ones that name the handler. -/
def routesReceivedBy (s : InterfaceSpec) (handlerName : String) : List Route :=
  s.Routes.filterMap (fun route =>
    let filteredMessages := route.Messages.filter (fun m => m.Receivers.contains handlerName)
    if filteredMessages.isEmpty then none
    else some { Source := route.Source, Messages := filteredMessages })

/-- A name occurs in the receiver list of at least one message of at least
one route (the receiver predicate of claim C3). -/
def isReceiver (s : InterfaceSpec) (n : String) : Bool :=
  s.Routes.any (fun r => r.Messages.any (fun m => m.Receivers.contains n))

/-- Modelled from the spec: the field set of the generated messenger struct
(the messenger generator is not under src/). Per the spec, the router
"holds one field per handler satisfying the receiver predicate" and the
project documentation states it "only includes handlers that receive
messages"; the receiver predicate is realised by the in-repository query
`routesReceivedBy` being non-empty. Fields are listed in handler
declaration order. -/
def messengerFields (s : InterfaceSpec) : List String :=
  s.Handlers.filterMap (fun h =>
    if (routesReceivedBy s h.Name).isEmpty then none else some h.Name)

/-- Chain role of a receiver occurrence. -/
inductive Role where
  | Intermediate : Role
  | Terminal : Role
deriving DecidableEq

/-- Modelled from the spec: for a `(route, message, receiver-index)` tuple
the receiver's role is Terminal if `index == len(receivers)-1`, else
Intermediate (the interface emitter's template is not under src/). -/
def role (receivers : List String) (i : Nat) : Role :=
  if i = receivers.length - 1 then .Terminal else .Intermediate

/-- Return shape of a generated handler method. -/
inductive MethodShape where
  | errOnly : MethodShape
  | respAndErr : MethodShape
deriving DecidableEq

/-- Modelled from the spec: the generated method's return shape (the
interface emitter's template is not under src/). Per the project
documentation, the last receiver in a chain returns `(result, error)` and
an intermediate receiver returns `error` only. -/
def genMethodShape (receivers : List String) (i : Nat) : MethodShape :=
  if i + 1 = receivers.length then .respAndErr else .errOnly

/-- Modelled from the spec: the generated routing method of the messenger
(the messenger generator and its output are not under src/). Per the spec,
resuming the chain at an Intermediate index calls that receiver and, on a
non-nil error, returns the response zero value paired with that error;
on nil it resumes at the next index; the Terminal receiver's `(response,
error)` pair is returned unchanged. Each intermediate receiver is
represented by the error it returns when invoked (`none` = nil), the
terminal receiver by the pair it returns. The result is the routing
method's return value, together with how many intermediate receivers were
invoked (always a prefix of the list) and whether the terminal receiver
was invoked. -/
def runChain {ρ ε : Type} (zero : ρ) :
    List (Option ε) → ρ × Option ε → (ρ × Option ε) × Nat × Bool
  | [], terminal => (terminal, 0, true)
  | some e :: _, _ => ((zero, some e), 1, false)
  | none :: rest, terminal =>
      let r := runChain zero rest terminal
      (r.1, r.2.1 + 1, r.2.2)

/-- Generate mirrors the Go method `(g *Generator) Generate() ([]byte, error)`.
The template constant, its execution and `go/format.Source` are external
inputs, passed as oracles: `tmplParse` is the result of
`template.New(...).Parse(fileTemplate)`, `execRes` the result of
`tmpl.Execute` on the spec, `fmtSource` the behaviour of `format.Source`.
The returned pair is (bytes, error): on a format failure the raw rendered
text is returned together with the error, exactly as in the source. -/
def generate (tmplParse : Except String Unit) (execRes : Except String String)
    (fmtSource : String → Except String String) : Option String × Option String :=
  match tmplParse with
  | .error e => (none, some ("failed to parse template: " ++ e))
  | .ok _ =>
      match execRes with
      | .error e => (none, some ("failed to execute template: " ++ e))
      | .ok rendered =>
          match fmtSource rendered with
          | .error e => (some rendered, some ("failed to format generated code: " ++ e))
          | .ok formatted => (some formatted, none)

/-- WriteToFile mirrors the Go method on `Generator`: when `Generate`
reports an error nothing is written and the error is returned; otherwise
the bytes are handed to `os.WriteFile`, modelled as the atomic oracle
`writeOk`. The first component is the content actually written to the
output file (`none` = the file was not created or modified). -/
def writeToFile (gen : Option String × Option String) (writeOk : Bool) :
    Option String × Option String :=
  match gen.2 with
  | some e => (none, some e)
  | none =>
      if writeOk then (some (gen.1.getD ""), none)
      else (none, some "failed to write output file")

/-- LoadSpec mirrors the Go function: read the file (oracle `readRes`),
parse the YAML (oracle `parseYaml`), then validate; each failure is
wrapped with the source's message prefix. -/
def loadSpec (readRes : Except String String)
    (parseYaml : String → Except String InterfaceSpec) : Except String InterfaceSpec :=
  match readRes with
  | .error e => .error ("failed to read spec file: " ++ e)
  | .ok data =>
      match parseYaml data with
      | .error e => .error ("failed to parse YAML: " ++ e)
      | .ok spec =>
          match validate spec with
          | .error v => .error ("validation failed: " ++ v.message)
          | .ok _ => .ok spec

/-- Mirror of `main` after flag parsing: load the spec, then generate and
write. The result is the content written to the output file (`none` = the
file was not created or modified) and whether the process succeeded
(`false` = `os.Exit(1)`). -/
def runGeneration (readRes : Except String String)
    (parseYaml : String → Except String InterfaceSpec)
    (tmplParse : Except String Unit)
    (execTemplate : InterfaceSpec → Except String String)
    (fmtSource : String → Except String String) (writeOk : Bool) :
    Option String × Bool :=
  match loadSpec readRes parseYaml with
  | .error _ => (none, false)
  | .ok spec =>
      match writeToFile (generate tmplParse (execTemplate spec) fmtSource) writeOk with
      | (written, some _) => (written, false)
      | (written, none) => (written, true)

/-- A well-formed specification used to instantiate proved theorems:
handlers A and B, with A sourcing one message received by B. -/
def exampleGoodSpec : InterfaceSpec :=
  { Package := "interfaces", Imports := [],
    Handlers := [⟨"A", "TA"⟩, ⟨"B", "TB"⟩],
    Routes := [⟨"A", [⟨"m", "", ["B"]⟩]⟩] }

/-- A specification with two handlers sharing the name "A". -/
def exampleDupSpec : InterfaceSpec :=
  { Package := "p", Imports := [],
    Handlers := [⟨"A", "T1"⟩, ⟨"A", "T2"⟩],
    Routes := [⟨"A", [⟨"m", "", ["A"]⟩]⟩] }

/-- The spec's referential-integrity scenario: handlers A and B, a route
whose receiver "C" is not declared. -/
def exampleBadRefSpec : InterfaceSpec :=
  { Package := "p", Imports := [],
    Handlers := [⟨"A", "TA"⟩, ⟨"B", "TB"⟩],
    Routes := [⟨"A", [⟨"m", "", ["C"]⟩]⟩] }

/-- `strings.Split` always yields at least one segment. -/
lemma splitDot_ne_nil (cs : List Char) : splitDot cs ≠ [] := by
  cases cs with
  | nil => simp [splitDot]
  | cons c rest =>
      unfold splitDot
      cases h : splitDot rest with
      | nil => simp
      | cons seg segs => by_cases hc : c = '.' <;> simp [hc]

/-- The receiver predicate, spelled out as an existential. -/
lemma isReceiver_iff (s : InterfaceSpec) (n : String) :
    isReceiver s n = true ↔ ∃ r ∈ s.Routes, ∃ m ∈ r.Messages, n ∈ m.Receivers := by
  unfold isReceiver
  simp

/-- The in-source query `routesReceivedBy` returns a non-empty list
exactly when the handler occurs as a receiver somewhere. -/
lemma routesReceivedBy_nonempty_iff (s : InterfaceSpec) (n : String) :
    (routesReceivedBy s n).isEmpty = false ↔ isReceiver s n = true := by
  unfold routesReceivedBy isReceiver
  simp [List.isEmpty_eq_false, List.filterMap_eq_nil_iff]

/-- C1: in a generated routing chain, the instant an Intermediate receiver
returns a non-nil error (all intermediates before it having returned nil),
the routing method returns the response type's zero value paired with
exactly that error; the receivers invoked are precisely the failing prefix,
so no receiver after the failing one — later intermediates or the terminal
receiver — is ever invoked. -/
theorem chain_short_circuit {ρ ε : Type} (zero : ρ) (xs ys : List (Option ε)) (e : ε)
    (terminal : ρ × Option ε) (hxs : ∀ x ∈ xs, x = none) :
    runChain zero (xs ++ some e :: ys) terminal = ((zero, some e), xs.length + 1, false) := by
  induction xs with
  | nil => rfl
  | cons hd tl ih =>
    have hhd : hd = none := hxs hd (List.mem_cons_self hd tl)
    subst hhd
    have ih2 := ih (fun x hx => hxs x (List.mem_cons_of_mem _ hx))
    simp [runChain, ih2]

/-- Witness for C1: chain [X, Y, Z] with X failing; result is the zero
value with X's error, one receiver invoked, terminal not invoked. -/
theorem chain_short_circuit_witness :
    runChain (0 : Nat) [some "boom", none] ((42 : Nat), none) = ((0, some "boom"), 1, false) :=
  chain_short_circuit 0 [] [none] "boom" (42, none) (by decide)

/-- C2: a receiver occurrence is Terminal exactly when its index is the
last index of the receiver list, and the generated method's return shape
is `(response, error)` exactly for the Terminal occurrence and
`error`-only exactly for Intermediate occurrences. -/
theorem receiver_role_and_method_shape (r : List String) (i : Nat) (hi : i < r.length) :
    (role r i = .Terminal ↔ i = r.length - 1) ∧
    (genMethodShape r i = .respAndErr ↔ i = r.length - 1) ∧
    (genMethodShape r i = .errOnly ↔ role r i = .Intermediate) := by
  unfold role genMethodShape
  by_cases h : i = r.length - 1
  · have h2 : i + 1 = r.length := by omega
    rw [if_pos h, if_pos h2]
    simp [h]
  · have h2 : ¬ (i + 1 = r.length) := by omega
    rw [if_neg h, if_neg h2]
    simp [h]

/-- Witness for C2 on the documented chain [middlewareTwo,
accountRepository] at the terminal index 1. -/
theorem receiver_role_and_method_shape_witness :
    (role ["middlewareTwo", "accountRepository"] 1 = .Terminal ↔
        1 = ["middlewareTwo", "accountRepository"].length - 1) ∧
    (genMethodShape ["middlewareTwo", "accountRepository"] 1 = .respAndErr ↔
        1 = ["middlewareTwo", "accountRepository"].length - 1) ∧
    (genMethodShape ["middlewareTwo", "accountRepository"] 1 = .errOnly ↔
        role ["middlewareTwo", "accountRepository"] 1 = .Intermediate) :=
  receiver_role_and_method_shape ["middlewareTwo", "accountRepository"] 1 (by decide)

/-- C3: a handler name is a field of the generated router exactly when it
is a declared handler that occurs in the receiver list of at least one
route (equivalently, when the in-source query `routesReceivedBy` is
non-empty for it); a handler that only originates messages is never a
field. -/
theorem messenger_field_iff (s : InterfaceSpec) (n : String) :
    (n ∈ messengerFields s ↔ ((∃ h ∈ s.Handlers, h.Name = n) ∧ isReceiver s n = true)) ∧
    ((routesReceivedBy s n).isEmpty = false ↔ isReceiver s n = true) := by
  refine ⟨?_, routesReceivedBy_nonempty_iff s n⟩
  unfold messengerFields
  constructor
  · intro hmem
    rcases List.mem_filterMap.mp hmem with ⟨h, hh, heq⟩
    cases hre : (routesReceivedBy s h.Name).isEmpty with
    | false =>
        rw [if_neg (by simp [hre])] at heq
        injection heq with heq
        subst heq
        exact ⟨⟨h, hh, rfl⟩, (routesReceivedBy_nonempty_iff s h.Name).mp hre⟩
    | true => rw [if_pos (by simp [hre])] at heq; cases heq
  · rintro ⟨⟨h, hh, hn⟩, hrecv⟩
    refine List.mem_filterMap.mpr ⟨h, hh, ?_⟩
    have hre : (routesReceivedBy s h.Name).isEmpty = false := by
      rw [hn]
      exact (routesReceivedBy_nonempty_iff s n).mpr hrecv
    rw [if_neg (by simp [hre]), hn]

/-- C9: the source's `baseName` template helper coincides with the claim's
derivation rule (strip the leading star, take the last dot-separated
segment, strip a trailing "Proto"), and derives the documented example. -/
theorem baseName_follows_spec_rule :
    (∀ s : String, baseName s = baseNameSpec s) ∧
    baseName "*configpb.AccountCreationRequestProto" = "AccountCreationRequest" ∧
    baseName "*pkg.FooProto" = "Foo" ∧
    baseName "plain" = "plain" := by
  refine ⟨fun s => ?_, by decide, by decide, rfl⟩
  unfold baseName baseNameSpec baseNameChars baseNameSpecChars
  cases h : (splitDot (trimStar s.data)).getLast? with
  | none =>
      rw [List.getLast?_eq_none_iff] at h
      exact absurd h (splitDot_ne_nil (trimStar s.data))
  | some name => simp [h]

/-- Errors from the handler-field loop are handler-field errors. -/
lemma checkHandlers_some_inv {i : Nat} {hs : List Handler} {e : ValErr}
    (h : checkHandlers i hs = some e) : e.tag = 3 ∨ e.tag = 4 := by
  induction hs generalizing i with
  | nil => exact absurd h (by simp [checkHandlers])
  | cons hd tl ih =>
      unfold checkHandlers at h
      split_ifs at h with h1 h2
      · cases h
        left
        rfl
      · cases h
        right
        rfl
      · exact ih h

/-- When the handler-field loop passes, every handler has a non-empty
name and a non-empty type. -/
lemma checkHandlers_none_inv {i : Nat} {hs : List Handler}
    (h : checkHandlers i hs = none) : ∀ hd ∈ hs, hd.Name ≠ "" ∧ hd.Type_ ≠ "" := by
  induction hs generalizing i with
  | nil => intro hd hmem; cases hmem
  | cons hd0 tl ih =>
      unfold checkHandlers at h
      split_ifs at h with h1 h2
      · intro x hx
        rcases List.mem_cons.mp hx with rfl | hx2
        · exact ⟨h1, h2⟩
        · exact ih h x hx2

/-- Inversion for the receiver loop: the only error it produces is an
unknown-receiver error citing an actual receiver name and carrying the
full handler-name list. -/
lemma checkReceivers_some_inv {hs : List Handler} {i j : Nat} :
    ∀ {k : Nat} {rcvs : List String} {e : ValErr}, checkReceivers hs i j k rcvs = some e →
      ∃ k2 n, e = .unknownReceiver i j k2 n (getHandlerNamesList hs) ∧
        n ∈ rcvs ∧ hasHandler hs n = false := by
  intro k rcvs
  induction rcvs generalizing k with
  | nil => intro e h; simp [checkReceivers] at h
  | cons r rest ih =>
      intro e h
      unfold checkReceivers at h
      split_ifs at h with hh
      · rcases ih h with ⟨k2, n, he, hn, hf⟩
        exact ⟨k2, n, he, List.mem_cons_of_mem _ hn, hf⟩
      · cases h
        exact ⟨k, r, rfl, List.mem_cons_self r rest, by simpa using hh⟩

/-- Inversion for the message loop. -/
lemma checkMessages_some_inv {hs : List Handler} {i : Nat} :
    ∀ {j : Nat} {ms : List MessageRoute} {e : ValErr}, checkMessages hs i j ms = some e →
      (∃ j2, e = .messageTypeRequired i j2) ∨ (∃ j2, e = .noReceivers i j2) ∨
      (∃ j2 k n, e = .unknownReceiver i j2 k n (getHandlerNamesList hs) ∧
        hasHandler hs n = false ∧ ∃ m ∈ ms, n ∈ m.Receivers) := by
  intro j ms
  induction ms generalizing j with
  | nil => intro e h; simp [checkMessages] at h
  | cons m rest ih =>
      intro e h
      unfold checkMessages at h
      split_ifs at h with h1 h2
      · cases h
        exact Or.inl ⟨j, rfl⟩
      · cases h
        exact Or.inr (Or.inl ⟨j, rfl⟩)
      · split at h
        · rename_i e0 heq
          cases h
          rcases checkReceivers_some_inv heq with ⟨k2, n, he, hn, hf⟩
          exact Or.inr (Or.inr ⟨j, k2, n, he, hf, m, List.mem_cons_self m rest, hn⟩)
        · rcases ih h with h3 | h3 | ⟨j2, k, n, he, hf, m2, hm2, hn⟩
          · exact Or.inl h3
          · exact Or.inr (Or.inl h3)
          · exact Or.inr (Or.inr ⟨j2, k, n, he, hf, m2, List.mem_cons_of_mem _ hm2, hn⟩)

/-- Inversion for the route loop. -/
lemma checkRoutes_some_inv {hs : List Handler} :
    ∀ {i : Nat} {rs : List Route} {e : ValErr}, checkRoutes hs i rs = some e →
      (∃ i2, e = .sourceRequired i2) ∨
      (∃ i2 n, e = .unknownSource i2 n (getHandlerNamesList hs) ∧
        hasHandler hs n = false ∧ ∃ r ∈ rs, r.Source = n) ∨
      (∃ i2 src, e = .noMessages i2 src) ∨
      (∃ i2 j2, e = .messageTypeRequired i2 j2) ∨
      (∃ i2 j2, e = .noReceivers i2 j2) ∨
      (∃ i2 j2 k n, e = .unknownReceiver i2 j2 k n (getHandlerNamesList hs) ∧
        hasHandler hs n = false ∧ ∃ r ∈ rs, ∃ m ∈ r.Messages, n ∈ m.Receivers) := by
  intro i rs
  induction rs generalizing i with
  | nil => intro e h; simp [checkRoutes] at h
  | cons r rest ih =>
      intro e h
      unfold checkRoutes at h
      split_ifs at h with h1 h2 h3
      · cases h
        exact Or.inl ⟨i, rfl⟩
      · cases h
        exact Or.inr (Or.inr (Or.inl ⟨i, r.Source, rfl⟩))
      · split at h
        · rename_i e0 heq
          cases h
          rcases checkMessages_some_inv heq with h4 | h4 | ⟨j2, k, n, he, hf, m2, hm2, hn⟩
          · rcases h4 with ⟨j2, he⟩
            exact Or.inr (Or.inr (Or.inr (Or.inl ⟨i, j2, he⟩)))
          · rcases h4 with ⟨j2, he⟩
            exact Or.inr (Or.inr (Or.inr (Or.inr (Or.inl ⟨i, j2, he⟩))))
          · exact Or.inr (Or.inr (Or.inr (Or.inr (Or.inr
              ⟨i, j2, k, n, he, hf, r, List.mem_cons_self r rest, m2, hm2, hn⟩))))
        · rcases ih h with h4 | ⟨i2, n, he, hf, r2, hr2, hsrc⟩ | h4 | h4 | h4 |
              ⟨i2, j2, k, n, he, hf, r2, hr2, m2, hm2, hn⟩
          · exact Or.inl h4
          · exact Or.inr (Or.inl ⟨i2, n, he, hf, r2, List.mem_cons_of_mem _ hr2, hsrc⟩)
          · exact Or.inr (Or.inr (Or.inl h4))
          · exact Or.inr (Or.inr (Or.inr (Or.inl h4)))
          · exact Or.inr (Or.inr (Or.inr (Or.inr (Or.inl h4))))
          · exact Or.inr (Or.inr (Or.inr (Or.inr (Or.inr
              ⟨i2, j2, k, n, he, hf, r2, List.mem_cons_of_mem _ hr2, m2, hm2, hn⟩))))
      · cases h
        exact Or.inr (Or.inl ⟨i, r.Source, rfl, by simpa using h2, r,
          List.mem_cons_self r rest, rfl⟩)

/-- Every route-loop error has tag at least 5. -/
lemma checkRoutes_some_tag {hs : List Handler} {i : Nat} {rs : List Route} {e : ValErr}
    (h : checkRoutes hs i rs = some e) : 5 ≤ e.tag := by
  rcases checkRoutes_some_inv h with ⟨i2, rfl⟩ | ⟨i2, n, rfl, -⟩ | ⟨i2, src, rfl⟩ |
      ⟨i2, j2, rfl⟩ | ⟨i2, j2, rfl⟩ | ⟨i2, j2, k, n, rfl, -⟩ <;> simp [ValErr.tag]

/-- The receiver loop passes exactly when every receiver resolves. -/
lemma checkReceivers_none_iff {hs : List Handler} {i j : Nat} :
    ∀ (k : Nat) (rcvs : List String),
    checkReceivers hs i j k rcvs = none ↔ rcvs.all (fun n => hasHandler hs n) = true := by
  intro k rcvs
  induction rcvs generalizing k with
  | nil => simp [checkReceivers]
  | cons r rest ih =>
      unfold checkReceivers
      cases hr : hasHandler hs r with
      | true => simp [hr, ih]
      | false => simp [hr]

/-- The source's receiver loop rejects at the first unresolvable
receiver, at its index. -/
lemma checkReceivers_eq_first {hs : List Handler} {i j : Nat} :
    ∀ (rcvs : List String) (k : Nat),
    checkReceivers hs i j k rcvs =
      match rcvs.findIdx? (fun n => !(hasHandler hs n)) with
      | none => none
      | some d =>
          match rcvs[d]? with
          | none => none
          | some n => some (.unknownReceiver i j (k + d) n (getHandlerNamesList hs)) := by
  intro rcvs
  induction rcvs with
  | nil => intro k; simp [checkReceivers]
  | cons r rest ih =>
      intro k
      unfold checkReceivers
      cases hr : hasHandler hs r with
      | false => simp [hr]
      | true =>
          rw [if_pos rfl]
          rw [ih (k + 1)]
          simp only [List.findIdx?_cons, hr, Bool.not_true, if_false, List.findIdx?_start_succ]
          cases hfd : rest.findIdx? (fun n => !(hasHandler hs n)) with
          | none => simp
          | some d =>
              simp only [Option.map_some']
              cases hrd : rest[d]? with
              | none => simp [hrd]
              | some n =>
                  simp [hrd, List.getElem?_cons_succ]
                  omega

/-- The source's receiver loop, started at 0, equals claim C4's
first-failure receiver check. -/
lemma firstReceiverErr_eq {hs : List Handler} {i j : Nat} (rcvs : List String) :
    checkReceivers hs i j 0 rcvs = firstReceiverErr hs i j rcvs := by
  rw [checkReceivers_eq_first]
  unfold firstReceiverErr
  cases hfd : rcvs.findIdx? (fun n => !(hasHandler hs n)) with
  | none => rfl
  | some d => simp only [Nat.zero_add]

/-- The message loop passes exactly when every message passes its checks. -/
lemma checkMessages_none_iff {hs : List Handler} {i : Nat} :
    ∀ (j : Nat) (ms : List MessageRoute),
    checkMessages hs i j ms = none ↔ ms.all (fun m => messageOkB hs m) = true := by
  intro j ms
  induction ms generalizing j with
  | nil => simp [checkMessages]
  | cons m rest ih =>
      unfold checkMessages
      by_cases hmsg : m.Message = ""
      · simp [hmsg, messageOkB]
      · rw [if_neg hmsg]
        cases hrec : m.Receivers.isEmpty with
        | true => simp [hrec, messageOkB, hmsg]
        | false =>
            rw [if_neg (by simp [hrec])]
            cases hcr : checkReceivers hs i j 0 m.Receivers with
            | some e =>
                have hall : ¬ (m.Receivers.all (fun n => hasHandler hs n) = true) := by
                  intro hall
                  rw [(checkReceivers_none_iff 0 m.Receivers).mpr hall] at hcr
                  cases hcr
                simp [messageOkB, hmsg, hrec, hall]
            | none =>
                have hall := (checkReceivers_none_iff 0 m.Receivers).mp hcr
                simp [messageOkB, hmsg, hrec, hall, ih]

/-- The source's message loop rejects at the first failing message, with
the claim's check order inside that message. -/
lemma checkMessages_eq_first {hs : List Handler} {i : Nat} :
    ∀ (ms : List MessageRoute) (j : Nat),
    checkMessages hs i j ms =
      match ms.findIdx? (fun m => !(messageOkB hs m)) with
      | none => none
      | some d =>
          match ms[d]? with
          | none => none
          | some m =>
              if m.Message == "" then some (.messageTypeRequired i (j + d))
              else if m.Receivers.isEmpty then some (.noReceivers i (j + d))
              else firstReceiverErr hs i (j + d) m.Receivers := by
  intro ms
  induction ms with
  | nil => intro j; simp [checkMessages]
  | cons m rest ih =>
      intro j
      unfold checkMessages
      by_cases hmsg : m.Message = ""
      · have hok : messageOkB hs m = false := by simp [messageOkB, hmsg]
        simp [hmsg, hok]
      · rw [if_neg hmsg]
        cases hrec : m.Receivers.isEmpty with
        | true =>
            have hok : messageOkB hs m = false := by simp [messageOkB, hrec]
            have hnil : m.Receivers = [] := List.isEmpty_iff.mp hrec
            simp [hok, hmsg, hnil]
        | false =>
            rw [if_neg (by simp [hrec])]
            cases hall : m.Receivers.all (fun n => hasHandler hs n) with
            | false =>
                have hok : messageOkB hs m = false := by simp [messageOkB, hall]
                have hcr : checkReceivers hs i j 0 m.Receivers =
                    firstReceiverErr hs i j m.Receivers := firstReceiverErr_eq m.Receivers
                cases hfr : firstReceiverErr hs i j m.Receivers with
                | some e => simp [hcr, hfr, hok, hmsg, hrec]
                | none =>
                    exfalso
                    rw [hfr] at hcr
                    have := (checkReceivers_none_iff 0 m.Receivers).mp hcr
                    rw [this] at hall
                    cases hall
            | true =>
                have hok : messageOkB hs m = true := by simp [messageOkB, hmsg, hrec, hall]
                have hcr : checkReceivers hs i j 0 m.Receivers = none :=
                  (checkReceivers_none_iff 0 m.Receivers).mpr hall
                rw [hcr]
                rw [ih (j + 1)]
                simp only [List.findIdx?_cons, hok, Bool.not_true, if_false,
                  List.findIdx?_start_succ]
                cases hfd : rest.findIdx? (fun m2 => !(messageOkB hs m2)) with
                | none => simp
                | some d =>
                    simp only [Option.map_some']
                    cases hrd : rest[d]? with
                    | none => simp [hrd]
                    | some m2 =>
                        rw [show j + 1 + d = j + (d + 1) from by omega]
                        simp [hrd]

/-- The source's message loop, started at 0, equals claim C4's
first-failure message check. -/
lemma firstMessageErr_eq {hs : List Handler} {i : Nat} (ms : List MessageRoute) :
    checkMessages hs i 0 ms = firstMessageErr hs i ms := by
  rw [checkMessages_eq_first]
  unfold firstMessageErr
  cases hfd : ms.findIdx? (fun m => !(messageOkB hs m)) with
  | none => rfl
  | some d => simp only [Nat.zero_add]

/-- The source's handler loop rejects at the first failing handler,
name before type. -/
lemma checkHandlers_eq_first :
    ∀ (hs : List Handler) (k : Nat),
    checkHandlers k hs =
      match hs.findIdx? (fun h => !(handlerOkB h)) with
      | none => none
      | some d =>
          match hs[d]? with
          | none => none
          | some h =>
              if h.Name == "" then some (.handlerNameRequired (k + d))
              else some (.handlerTypeRequired (k + d)) := by
  intro hs
  induction hs with
  | nil => intro k; simp [checkHandlers]
  | cons h0 rest ih =>
      intro k
      unfold checkHandlers
      by_cases hname : h0.Name = ""
      · have hok : handlerOkB h0 = false := by simp [handlerOkB, hname]
        simp [hname, hok]
      · rw [if_neg hname]
        by_cases htype : h0.Type_ = ""
        · have hok : handlerOkB h0 = false := by simp [handlerOkB, htype]
          simp [htype, hname, hok]
        · have hok : handlerOkB h0 = true := by simp [handlerOkB, hname, htype]
          rw [if_neg htype]
          rw [ih (k + 1)]
          simp only [List.findIdx?_cons, hok, Bool.not_true, if_false,
            List.findIdx?_start_succ]
          cases hfd : rest.findIdx? (fun h => !(handlerOkB h)) with
          | none => simp
          | some d =>
              simp only [Option.map_some']
              cases hrd : rest[d]? with
              | none => simp [hrd]
              | some h1 =>
                  rw [show k + 1 + d = k + (d + 1) from by omega]
                  simp [hrd]

/-- The source's handler loop, started at 0, equals claim C4's
first-failure handler check. -/
lemma firstHandlerErr_eq (hs : List Handler) :
    checkHandlers 0 hs = firstHandlerErr hs := by
  rw [checkHandlers_eq_first]
  unfold firstHandlerErr
  cases hfd : hs.findIdx? (fun h => !(handlerOkB h)) with
  | none => rfl
  | some d => simp only [Nat.zero_add]

/-- The source's route loop rejects at the first failing route, with the
claim's check order inside that route. -/
lemma checkRoutes_eq_first {hs : List Handler} :
    ∀ (rs : List Route) (i : Nat),
    checkRoutes hs i rs =
      match rs.findIdx? (fun r => !(routeOkB hs r)) with
      | none => none
      | some d =>
          match rs[d]? with
          | none => none
          | some r =>
              if r.Source == "" then some (.sourceRequired (i + d))
              else if !(hasHandler hs r.Source) then
                some (.unknownSource (i + d) r.Source (getHandlerNamesList hs))
              else if r.Messages.isEmpty then some (.noMessages (i + d) r.Source)
              else firstMessageErr hs (i + d) r.Messages := by
  intro rs
  induction rs with
  | nil => intro i; simp [checkRoutes]
  | cons r rest ih =>
      intro i
      unfold checkRoutes
      by_cases hsrc : r.Source = ""
      · have hok : routeOkB hs r = false := by simp [routeOkB, hsrc]
        simp [hsrc, hok]
      · rw [if_neg hsrc]
        cases hres : hasHandler hs r.Source with
        | false =>
            have hok : routeOkB hs r = false := by simp [routeOkB, hres]
            rw [if_neg (by simp [hres])]
            simp [hok, hsrc, hres]
        | true =>
            rw [if_pos rfl]
            cases hmse : r.Messages.isEmpty with
            | true =>
                have hok : routeOkB hs r = false := by simp [routeOkB, hmse]
                have hnil : r.Messages = [] := List.isEmpty_iff.mp hmse
                simp [hok, hsrc, hres, hnil]
            | false =>
                rw [if_neg (by simp [hmse])]
                cases hall : r.Messages.all (fun m => messageOkB hs m) with
                | false =>
                    have hok : routeOkB hs r = false := by simp [routeOkB, hall]
                    have hcm : checkMessages hs i 0 r.Messages =
                        firstMessageErr hs i r.Messages := firstMessageErr_eq r.Messages
                    cases hfm : firstMessageErr hs i r.Messages with
                    | some e => simp [hcm, hfm, hok, hsrc, hres, hmse]
                    | none =>
                        exfalso
                        rw [hfm] at hcm
                        have := (checkMessages_none_iff 0 r.Messages).mp hcm
                        rw [this] at hall
                        cases hall
                | true =>
                    have hok : routeOkB hs r = true := by
                      simp [routeOkB, hsrc, hres, hmse, hall]
                    have hcm : checkMessages hs i 0 r.Messages = none :=
                      (checkMessages_none_iff 0 r.Messages).mpr hall
                    rw [hcm]
                    rw [ih (i + 1)]
                    simp only [List.findIdx?_cons, hok, Bool.not_true, if_false,
                      List.findIdx?_start_succ]
                    cases hfd : rest.findIdx? (fun r2 => !(routeOkB hs r2)) with
                    | none => simp
                    | some d =>
                        simp only [Option.map_some']
                        cases hrd : rest[d]? with
                        | none => simp [hrd]
                        | some r2 =>
                            rw [show i + 1 + d = i + (d + 1) from by omega]
                            simp [hrd]

/-- The source's route loop, started at 0, equals claim C4's
first-failure route check. -/
lemma firstRouteErr_eq {hs : List Handler} (rs : List Route) :
    checkRoutes hs 0 rs = firstRouteErr hs rs := by
  rw [checkRoutes_eq_first]
  unfold firstRouteErr
  cases hfd : rs.findIdx? (fun r => !(routeOkB hs r)) with
  | none => rfl
  | some d => simp only [Nat.zero_add]

/-- The source's `Validate` coincides with claim C4's reference
validator: same checks, same order, first failure wins. -/
lemma validate_eq_claim_order (s : InterfaceSpec) :
    validate s = validateClaimOrder s := by
  unfold validate validateClaimOrder
  rw [firstHandlerErr_eq, firstRouteErr_eq]

/-- Complete case analysis of a `validate` failure: exactly one of the
checks failed, and every check before it passed. -/
lemma validate_error_inv {s : InterfaceSpec} {e : ValErr} (h : validate s = .error e) :
    (s.Package = "" ∧ e = .pkgRequired) ∨
    (s.Package ≠ "" ∧ s.Handlers = [] ∧ e = .noHandlers) ∨
    (s.Package ≠ "" ∧ s.Handlers ≠ [] ∧ s.Routes = [] ∧ e = .noRoutes) ∨
    (s.Package ≠ "" ∧ s.Handlers ≠ [] ∧ s.Routes ≠ [] ∧ checkHandlers 0 s.Handlers = some e) ∨
    (s.Package ≠ "" ∧ s.Handlers ≠ [] ∧ s.Routes ≠ [] ∧ checkHandlers 0 s.Handlers = none ∧
      checkRoutes s.Handlers 0 s.Routes = some e) := by
  unfold validate at h
  split_ifs at h with h1 h2 h3
  · exact Or.inl ⟨h1, by injection h with h4; exact h4.symm⟩
  · exact Or.inr (Or.inl ⟨h1, List.isEmpty_iff.mp h2, by injection h with h4; exact h4.symm⟩)
  · refine Or.inr (Or.inr (Or.inl ⟨h1, fun c => h2 (by simp [c]), List.isEmpty_iff.mp h3,
      by injection h with h4; exact h4.symm⟩))
  · split at h
    · rename_i e0 heq
      injection h with h4
      subst h4
      exact Or.inr (Or.inr (Or.inr (Or.inl ⟨h1, fun c => h2 (by simp [c]),
        fun c => h3 (by simp [c]), heq⟩)))
    · rename_i heq
      split at h
      · rename_i e0 heq2
        injection h with h4
        subst h4
        exact Or.inr (Or.inr (Or.inr (Or.inr ⟨h1, fun c => h2 (by simp [c]),
          fun c => h3 (by simp [c]), heq, heq2⟩)))
      · exact absurd h (by simp)

/-- When `validate` succeeds, the handler-field loop passed. -/
lemma validate_ok_inv {s : InterfaceSpec} (h : validate s = .ok ()) :
    checkHandlers 0 s.Handlers = none := by
  unfold validate at h
  split_ifs at h
  · split at h
    · exact absurd h (by simp)
    · rename_i heq
      exact heq

/-- C4: `Validate` performs the claim's enumerated checks in that order
and rejects at the first failure: it coincides, on every specification,
with the reference validator `validateClaimOrder`, which checks the
package identifier, then that handlers and routes are non-empty, then
every handler's name and type in declaration order, and then scans the
routes for the first failure — source non-empty and resolving, at least
one message, message type non-empty, at least one receiver, every
receiver resolving — always reporting the earliest failing index.
In addition: the empty-package error occurs exactly when the package
identifier is empty; the no-handler error exactly when the package check
passed and the handler list is empty; the no-route error exactly when
both earlier checks passed and the route list is empty; and every
resolution-failure error (unknown source, unknown receiver) is raised
only after every handler passed the name/type checks, cites an offending
identifier that really occurs in the routes and resolves to no declared
handler, and carries the list of all known handler names (which
`ValErr.message` renders into the diagnostic text). -/
theorem validate_check_order (s : InterfaceSpec) :
    validate s = validateClaimOrder s ∧
    (validate s = .error .pkgRequired ↔ s.Package = "") ∧
    (validate s = .error .noHandlers ↔ (s.Package ≠ "" ∧ s.Handlers = [])) ∧
    (validate s = .error .noRoutes ↔ (s.Package ≠ "" ∧ s.Handlers ≠ [] ∧ s.Routes = [])) ∧
    (∀ i n avail, validate s = .error (.unknownSource i n avail) →
        avail = getHandlerNamesList s.Handlers ∧ hasHandler s.Handlers n = false ∧
        (∃ r ∈ s.Routes, r.Source = n) ∧
        (∀ hd ∈ s.Handlers, hd.Name ≠ "" ∧ hd.Type_ ≠ "")) ∧
    (∀ i j k n avail, validate s = .error (.unknownReceiver i j k n avail) →
        avail = getHandlerNamesList s.Handlers ∧ hasHandler s.Handlers n = false ∧
        (∃ r ∈ s.Routes, ∃ m ∈ r.Messages, n ∈ m.Receivers) ∧
        (∀ hd ∈ s.Handlers, hd.Name ≠ "" ∧ hd.Type_ ≠ "")) := by
  refine ⟨validate_eq_claim_order s, ⟨?_, ?_⟩, ⟨?_, ?_⟩, ⟨?_, ?_⟩, ?_, ?_⟩
  · intro h
    rcases validate_error_inv h with ⟨hp, -⟩ | ⟨-, -, he⟩ | ⟨-, -, -, he⟩ |
        ⟨-, -, -, hc⟩ | ⟨-, -, -, -, hc⟩
    · exact hp
    · simp at he
    · simp at he
    · rcases checkHandlers_some_inv hc with ht | ht <;> simp [ValErr.tag] at ht
    · have := checkRoutes_some_tag hc
      simp [ValErr.tag] at this
  · intro h
    unfold validate
    rw [if_pos h]
  · intro h
    rcases validate_error_inv h with ⟨-, he⟩ | ⟨hp, hh, -⟩ | ⟨-, -, -, he⟩ |
        ⟨-, -, -, hc⟩ | ⟨-, -, -, -, hc⟩
    · simp at he
    · exact ⟨hp, hh⟩
    · simp at he
    · rcases checkHandlers_some_inv hc with ht | ht <;> simp [ValErr.tag] at ht
    · have := checkRoutes_some_tag hc
      simp [ValErr.tag] at this
  · rintro ⟨hp, hh⟩
    simp [validate, hp, hh]
  · intro h
    rcases validate_error_inv h with ⟨-, he⟩ | ⟨-, -, he⟩ | ⟨hp, hh, hr, -⟩ |
        ⟨-, -, -, hc⟩ | ⟨-, -, -, -, hc⟩
    · simp at he
    · simp at he
    · exact ⟨hp, hh, hr⟩
    · rcases checkHandlers_some_inv hc with ht | ht <;> simp [ValErr.tag] at ht
    · have := checkRoutes_some_tag hc
      simp [ValErr.tag] at this
  · rintro ⟨hp, hh, hr⟩
    simp [validate, hp, hh, hr]
  · intro i n avail h
    rcases validate_error_inv h with ⟨-, he⟩ | ⟨-, -, he⟩ | ⟨-, -, -, he⟩ |
        ⟨-, -, -, hc⟩ | ⟨-, -, -, hnone, hc⟩
    · simp at he
    · simp at he
    · simp at he
    · rcases checkHandlers_some_inv hc with ht | ht <;> simp [ValErr.tag] at ht
    · rcases checkRoutes_some_inv hc with ⟨i2, he⟩ | ⟨i2, n2, he, hf, r2, hr2, hsrc⟩ |
          ⟨i2, src, he⟩ | ⟨i2, j2, he⟩ | ⟨i2, j2, he⟩ | ⟨i2, j2, k2, n2, he, -⟩
      · simp at he
      · injection he with e1 e2 e3
        subst e2
        subst e3
        exact ⟨rfl, hf, ⟨r2, hr2, hsrc⟩, checkHandlers_none_inv hnone⟩
      · simp at he
      · simp at he
      · simp at he
      · simp at he
  · intro i j k n avail h
    rcases validate_error_inv h with ⟨-, he⟩ | ⟨-, -, he⟩ | ⟨-, -, -, he⟩ |
        ⟨-, -, -, hc⟩ | ⟨-, -, -, hnone, hc⟩
    · simp at he
    · simp at he
    · simp at he
    · rcases checkHandlers_some_inv hc with ht | ht <;> simp [ValErr.tag] at ht
    · rcases checkRoutes_some_inv hc with ⟨i2, he⟩ | ⟨i2, n2, he, -⟩ |
          ⟨i2, src, he⟩ | ⟨i2, j2, he⟩ | ⟨i2, j2, he⟩ |
          ⟨i2, j2, k2, n2, he, hf, r2, hr2, m2, hm2, hn⟩
      · simp at he
      · simp at he
      · simp at he
      · simp at he
      · simp at he
      · injection he with e1 e2 e3 e4 e5
        subst e4
        subst e5
        exact ⟨rfl, hf, ⟨r2, hr2, m2, hm2, hn⟩, checkHandlers_none_inv hnone⟩

/-- Witness for C4 at the spec's referential-integrity scenario: handlers
A and B with a route receiver "C"; validation rejects citing "C" and
listing A and B. -/
theorem validate_check_order_witness :
    ["A", "B"] = getHandlerNamesList exampleBadRefSpec.Handlers ∧
    hasHandler exampleBadRefSpec.Handlers "C" = false ∧
    (∃ r ∈ exampleBadRefSpec.Routes, ∃ m ∈ r.Messages, "C" ∈ m.Receivers) ∧
    (∀ hd ∈ exampleBadRefSpec.Handlers, hd.Name ≠ "" ∧ hd.Type_ ≠ "") :=
  (validate_check_order exampleBadRefSpec).2.2.2.2.2 0 0 0 "C" ["A", "B"] rfl

/-- Counterexample to C7 as stated: `Validate` never checks handler-name
uniqueness, so a specification declaring two handlers both named "A" is
accepted while its handler names are not unique. -/
theorem validate_accepts_duplicate_names :
    validate exampleDupSpec = .ok () ∧
    ¬ (exampleDupSpec.Handlers.map Handler.Name).Nodup :=
  ⟨rfl, by decide⟩

/-- C7 amended: a specification accepted by validation need not have
unique handler names (no uniqueness check exists); what validation does
guarantee about the handler collection is that every declared handler has
a non-empty name and a non-empty type. -/
theorem validate_ok_handler_fields (s : InterfaceSpec) (h : validate s = .ok ()) :
    ∀ hd ∈ s.Handlers, hd.Name ≠ "" ∧ hd.Type_ ≠ "" :=
  checkHandlers_none_inv (validate_ok_inv h)

/-- Witness for the amended C7 theorem at a concrete accepted specification. -/
theorem validate_ok_handler_fields_witness :
    (Handler.mk "A" "T1").Name ≠ "" ∧ (Handler.mk "A" "T1").Type_ ≠ "" :=
  validate_ok_handler_fields exampleDupSpec rfl (Handler.mk "A" "T1") (by decide)

/-- C10: `LoadSpec` returns a specification exactly when the file read,
the YAML parse and validation all succeed, and any specification it
returns passes every `Validate` check — callers never observe a
loaded-but-invalid spec. -/
theorem loadSpec_ok_characterization (readRes : Except String String)
    (parseYaml : String → Except String InterfaceSpec) :
    (∀ spec, loadSpec readRes parseYaml = .ok spec →
        validate spec = .ok () ∧ ∃ data, readRes = .ok data ∧ parseYaml data = .ok spec) ∧
    ((∃ spec, loadSpec readRes parseYaml = .ok spec) ↔
        ∃ data spec, readRes = .ok data ∧ parseYaml data = .ok spec ∧
          validate spec = .ok ()) := by
  have main : ∀ spec, loadSpec readRes parseYaml = .ok spec →
      validate spec = .ok () ∧ ∃ data, readRes = .ok data ∧ parseYaml data = .ok spec := by
    intro spec h
    unfold loadSpec at h
    cases hr : readRes with
    | error e => rw [hr] at h; exact absurd h (by simp)
    | ok data =>
        rw [hr] at h
        simp only [] at h
        cases hp : parseYaml data with
        | error e => rw [hp] at h; exact absurd h (by simp)
        | ok sp =>
            rw [hp] at h
            simp only [] at h
            cases hv : validate sp with
            | error v => rw [hv] at h; exact absurd h (by simp)
            | ok u =>
                cases u
                rw [hv] at h
                simp only [] at h
                injection h with h
                subst h
                exact ⟨hv, data, rfl, hp⟩
  refine ⟨main, ?_, ?_⟩
  · rintro ⟨spec, h⟩
    rcases main spec h with ⟨hv, data, hr, hp⟩
    exact ⟨data, spec, hr, hp, hv⟩
  · rintro ⟨data, spec, hr, hp, hv⟩
    refine ⟨spec, ?_⟩
    unfold loadSpec
    rw [hr]
    simp only []
    rw [hp]
    simp only []
    rw [hv]

/-- Witness for C10 with oracles that read and parse successfully into a
valid specification. -/
theorem loadSpec_ok_characterization_witness :
    validate exampleGoodSpec = .ok () ∧
    ∃ data, (Except.ok "raw" : Except String String) = .ok data ∧
      (fun _ : String => Except.ok (ε := String) exampleGoodSpec) data = .ok exampleGoodSpec :=
  (loadSpec_ok_characterization (.ok "raw") (fun _ => .ok exampleGoodSpec)).1
    exampleGoodSpec rfl

/-- C5: generation has no partial-output mode. Whenever the process fails
(read, parse, validation, template, render, format or write failure) the
output file is not created or modified; when it succeeds, the file holds
exactly the fully formatted render of the loaded specification. -/
theorem generation_no_partial_output (readRes : Except String String)
    (parseYaml : String → Except String InterfaceSpec) (tmplParse : Except String Unit)
    (execTemplate : InterfaceSpec → Except String String)
    (fmtSource : String → Except String String) (writeOk : Bool) :
    ((runGeneration readRes parseYaml tmplParse execTemplate fmtSource writeOk).2 = false →
        (runGeneration readRes parseYaml tmplParse execTemplate fmtSource writeOk).1 = none) ∧
    ((runGeneration readRes parseYaml tmplParse execTemplate fmtSource writeOk).2 = true →
        ∃ spec rendered c, loadSpec readRes parseYaml = .ok spec ∧ tmplParse = .ok () ∧
          execTemplate spec = .ok rendered ∧ fmtSource rendered = .ok c ∧ writeOk = true ∧
          (runGeneration readRes parseYaml tmplParse execTemplate fmtSource writeOk).1 =
            some c) := by
  unfold runGeneration
  cases hl : loadSpec readRes parseYaml with
  | error e => simp
  | ok spec =>
      cases ht : tmplParse with
      | error e => simp [writeToFile, generate]
      | ok u =>
          cases u
          cases hx : execTemplate spec with
          | error e => simp [writeToFile, generate, hx]
          | ok rendered =>
              cases hf : fmtSource rendered with
              | error e => simp [writeToFile, generate, hx, hf]
              | ok c =>
                  cases writeOk with
                  | false => simp [writeToFile, generate, hx, hf]
                  | true =>
                      refine ⟨?_, fun _ => ?_⟩
                      · intro hfalse
                        exact absurd hfalse (by simp [writeToFile, generate, hx, hf])
                      · exact ⟨spec, rendered, c, rfl, rfl, hx, hf, rfl,
                          by simp [writeToFile, generate, hx, hf]⟩

/-- Witness for C5: a failing read yields a failing process with nothing
written. -/
theorem generation_no_partial_output_witness :
    (runGeneration (.error "no such file") (fun _ => .error "unused") (.ok ())
        (fun _ => .ok "") (fun s => .ok s) true).1 = none :=
  (generation_no_partial_output (.error "no such file") (fun _ => .error "unused")
    (.ok ()) (fun _ => .ok "") (fun s => .ok s) true).1 rfl

/-- C6: when the canonicalizing format pass fails on the rendered
template output, `Generate` surfaces the raw unformatted output together
with the formatter's diagnostic (wrapped in the source's message prefix)
instead of discarding it. -/
theorem generate_surfaces_raw_on_format_failure (rendered diag : String)
    (fmtSource : String → Except String String) (hf : fmtSource rendered = .error diag) :
    generate (.ok ()) (.ok rendered) fmtSource =
      (some rendered, some ("failed to format generated code: " ++ diag)) := by
  unfold generate
  simp only []
  rw [hf]

/-- Witness for C6 with a formatter that rejects its input. -/
theorem generate_surfaces_raw_on_format_failure_witness :
    generate (.ok ()) (.ok "raw output") (fun _ => .error "diag") =
      (some "raw output", some ("failed to format generated code: " ++ "diag")) :=
  generate_surfaces_raw_on_format_failure "raw output" "diag" (fun _ => .error "diag") rfl

/-- C8: generation is a deterministic function of its input — two runs of
the pipeline on equal inputs (same file contents, parser, template,
formatter and write behaviour) produce byte-identical results; the
embedded pipeline consults no other state. -/
theorem generation_deterministic (r1 r2 : Except String String)
    (p1 p2 : String → Except String InterfaceSpec) (t1 t2 : Except String Unit)
    (e1 e2 : InterfaceSpec → Except String String)
    (f1 f2 : String → Except String String) (w1 w2 : Bool)
    (hr : r1 = r2) (hp : p1 = p2) (ht : t1 = t2) (he : e1 = e2) (hf : f1 = f2)
    (hw : w1 = w2) :
    runGeneration r1 p1 t1 e1 f1 w1 = runGeneration r2 p2 t2 e2 f2 w2 := by
  subst hr
  subst hp
  subst ht
  subst he
  subst hf
  subst hw
  rfl

/-- Witness for C8: two identical runs agree. -/
theorem generation_deterministic_witness :
    runGeneration (.ok "x") (fun _ => .ok exampleGoodSpec) (.ok ())
        (fun _ => .ok "code") (fun s => .ok s) true =
      runGeneration (.ok "x") (fun _ => .ok exampleGoodSpec) (.ok ())
        (fun _ => .ok "code") (fun s => .ok s) true :=
  generation_deterministic _ _ _ _ _ _ _ _ _ _ _ _ rfl rfl rfl rfl rfl rfl

end IfaceGen
